import Mathlib

/-!
Shallow embedding of `src/ETO_app.py` (SATAIR Operations Tracker: an
Equipment Maintenance Tracker and a 6S Audit Tracker backed by two
session-scoped pandas DataFrames).

Modelling conventions:
  * calendar dates are integers (day ordinals); Python `date` comparison is
    the integer order;
  * Python floats are embedded as exact rationals (`ℚ`);
  * each DataFrame store is a list of records, in insertion order;
  * the 17 checklist items are indexed by `Fin 17` in the declaration order
    of `checklist_items` (item_1 … item_17), which is exactly the column
    order of `status_cols`;
  * the CSV export is modelled at row/field granularity (a list of rows,
    each a list of cell strings, the first row being the header); quoting
    and the textual form of numeric cells are abstracted by `toString`.
-/

namespace ETO

/-- Activity kinds offered by the maintenance form's select box. -/
inductive Activity where
  | inspection
  | repair
  | replacement
  | cleaning
deriving DecidableEq, Repr

/-- One row of the `activities` store
(`{"Date", "Equipment", "Technician", "Activity", "Remarks"}`). -/
structure MaintenanceRecord where
  date : Int
  equipment : String
  technician : String
  activity : Activity
  remarks : String
deriving DecidableEq, Repr

/-- The static 6S checklist taxonomy `checklist_items` of the source:
six categories, each mapping item keys to human-readable descriptions. -/
def checklist_items : List (String × List (String × String)) :=
  [("Sort", [("item_1", "Workstation free of items"),
             ("item_2", "Floors clear"),
             ("item_3", "Unneeded bins removed")]),
   ("Set in Order", [("item_4", "Tools in designated locations"),
                     ("item_5", "Bin locations marked"),
                     ("item_6", "Ergonomic arrangement")]),
   ("Shine", [("item_7", "Port/workstation clean"),
              ("item_8", "Grid/chargers free of dust"),
              ("item_9", "Bins clean")]),
   ("Standardize", [("item_10", "SOPs visible/followed"),
                    ("item_11", "Cleaning schedules posted"),
                    ("item_12", "Operators follow same process")]),
   ("Sustain", [("item_13", "Previous actions completed"),
                ("item_14", "Operators actively participate")]),
   ("Safety", [("item_15", "E-stops accessible"),
               ("item_16", "PPE used correctly"),
               ("item_17", "No safety hazards present")])]

/-- `status_cols = [f"{key}_Status" for category in checklist_items.values() for key in category]`. -/
def status_cols : List String :=
  (checklist_items.map (fun cat => cat.2.map (fun kv => kv.1 ++ "_Status"))).flatten

/-- `remarks_cols = [f"{key}_Remarks" ...]`. -/
def remarks_cols : List String :=
  (checklist_items.map (fun cat => cat.2.map (fun kv => kv.1 ++ "_Remarks"))).flatten

/-- `base_cols_6s = ["Date", "Equipment", "Auditor", "Compliance Score"]`. -/
def base_cols_6s : List String := ["Date", "Equipment", "Auditor", "Compliance Score"]

/-- `all_cols_6s = base_cols_6s + status_cols + remarks_cols`: the column
order of the `audits` store. -/
def all_cols_6s : List String := base_cols_6s ++ status_cols ++ remarks_cols

/-- `item_map = {f"{k}_Status": v for cat in checklist_items.values() for k, v in cat.items()}`
(association list, insertion order). -/
def item_map : List (String × String) :=
  (checklist_items.map (fun cat => cat.2.map (fun kv => (kv.1 ++ "_Status", kv.2)))).flatten

/-- Values entered in the audit form: the form renders exactly one
checkbox and one remark field per checklist key, so the submission carries
one boolean and one string per item, indexed in `status_cols` order. -/
structure AuditInput where
  date : Int
  equipment : String
  auditor : String
  status : Fin 17 → Bool
  remarks : Fin 17 → String

/-- One row of the `audits` store (columns `all_cols_6s`). -/
structure AuditRecord where
  date : Int
  equipment : String
  auditor : String
  complianceScore : ℚ
  status : Fin 17 → Bool
  remarks : Fin 17 → String

/-- `total_items = len(status_cols)`. -/
def total_items : Nat := status_cols.length

/-- `passed_items = sum(1 for col in status_cols if results[col])`. -/
def passed_items (st : Fin 17 → Bool) : Nat :=
  ((List.finRange 17).filter (fun i => st i)).length

/-- `score = (passed_items / total_items) * 100 if total_items > 0 else 0`. -/
def complianceScoreOf (st : Fin 17 → Bool) : ℚ :=
  if 0 < total_items then ((passed_items st : ℚ) / (total_items : ℚ)) * 100 else 0

/-- The `new_entry` dict built by the audit submit handler. -/
def mkAuditRecord (inp : AuditInput) : AuditRecord :=
  { date := inp.date
    equipment := inp.equipment
    auditor := inp.auditor
    complianceScore := complianceScoreOf inp.status
    status := inp.status
    remarks := inp.remarks }

/-- The whole session state: the two `st.session_state` stores. -/
structure AppState where
  activities : List MaintenanceRecord
  audits : List AuditRecord

/-- UI events that can touch or read the stores. -/
inductive Op where
  | submitMaint (inp : MaintenanceRecord)
  | submitAudit (inp : AuditInput)
  | viewMaintLogs
  | viewAuditLogs
  | maintDash (startDate endDate : Int)
  | auditDash (startDate endDate : Int)

/-- Effect of one UI event on the session state.  The two submit handlers
run `pd.concat([store, pd.DataFrame([new_entry])], ignore_index=True)`;
every other code path only reads the stores. -/
def step (st : AppState) : Op → AppState
  | .submitMaint inp => { st with activities := st.activities ++ [inp] }
  | .submitAudit inp => { st with audits := st.audits ++ [mkAuditRecord inp] }
  | .viewMaintLogs => st
  | .viewAuditLogs => st
  | .maintDash _ _ => st
  | .auditDash _ _ => st

/-- Textual form pandas gives a boolean cell in `to_csv`. -/
def pyBoolStr (b : Bool) : String := if b then "True" else "False"

/-- One full row of the `audits` DataFrame, as the cells of `all_cols_6s`
in order (numeric cell text abstracted by `toString`). -/
def auditCsvRow (r : AuditRecord) : List String :=
  [toString r.date, r.equipment, r.auditor, toString r.complianceScore]
    ++ (List.finRange 17).map (fun i => pyBoolStr (r.status i))
    ++ (List.finRange 17).map (fun i => r.remarks i)

/-- `df_filtered.to_csv(index=False)` on the audit log tab: the source
serialises the FULL store DataFrame (all of `all_cols_6s`), header row
first, one row per record. -/
def audit_to_csv (store : List AuditRecord) : List (List String) :=
  all_cols_6s :: store.map auditCsvRow

/-- Header row recovered by parsing a serialised CSV. -/
def csvHeaderOf (csv : List (List String)) : List String := csv.headD []

/-- Number of data rows recovered by parsing a serialised CSV. -/
def csvDataRowCount (csv : List (List String)) : Nat := csv.length - 1

/-- `base_cols_6s + [col for col in df_filtered.columns if '_Status' in col]`:
the columns the audit log table displays (substring test, as in the source). -/
def audit_display_cols : List String :=
  base_cols_6s ++ all_cols_6s.filter (fun c => decide ("_Status".data <:+: c.data))

/-- The cells of one displayed audit row, in `audit_display_cols` order. -/
def auditDisplayedRow (r : AuditRecord) : List String :=
  [toString r.date, r.equipment, r.auditor, toString r.complianceScore]
    ++ (List.finRange 17).map (fun i => pyBoolStr (r.status i))

/-- The audit log table as displayed: header names and rows. -/
def auditDisplayedTable (store : List AuditRecord) :
    List String × List (List String) :=
  (audit_display_cols, store.map auditDisplayedRow)

/-- The mask condition `(df['Date'].dt.date >= start) & (df['Date'].dt.date <= end)`. -/
def dateMask (s e d : Int) : Bool := decide (s ≤ d) && decide (d ≤ e)

/-- `filtered_df = df_dash[mask]` for the maintenance dashboard. -/
def filterActivities (store : List MaintenanceRecord) (s e : Int) :
    List MaintenanceRecord :=
  store.filter (fun r => dateMask s e r.date)

/-- `filtered_df_6s = df_dash[mask_6s]` for the audit dashboard. -/
def filterAudits (store : List AuditRecord) (s e : Int) : List AuditRecord :=
  store.filter (fun r => dateMask s e r.date)

/-- `pd.crosstab(filtered_df['Equipment'], filtered_df['Activity'])`:
occurrence count for each (equipment, activity) pair present. -/
def crosstab (rows : List MaintenanceRecord) :
    List (String × Activity × Nat) :=
  ((rows.map (fun r => (r.equipment, r.activity))).dedup).map
    (fun p => (p.1, p.2,
      (rows.filter (fun r =>
        decide (r.equipment = p.1) && decide (r.activity = p.2))).length))

/-- What the maintenance dashboard renders. -/
inductive MaintDash where
  | noData
  | rangeError
  | noDataInRange
  | report (total inspections repairs : Nat)
      (crosstabCells : List (String × Activity × Nat))
deriving DecidableEq

/-- The maintenance dashboard tab: emptiness guard, then the
`start_date > end_date` validation, then the date mask, then the
empty-filtered guard, then the metrics and the crosstab heatmap. -/
def maintDashboard (store : List MaintenanceRecord) (s e : Int) : MaintDash :=
  if store.isEmpty then .noData
  else if e < s then .rangeError
  else
    let filtered := filterActivities store s e
    if filtered.isEmpty then .noDataInRange
    else
      .report filtered.length
        ((filtered.filter (fun r => decide (r.activity = .inspection))).length)
        ((filtered.filter (fun r => decide (r.activity = .repair))).length)
        (crosstab filtered)

/-- Arithmetic mean, as pandas `Series.mean` (sum divided by count). -/
def mean (xs : List ℚ) : ℚ := xs.sum / (xs.length : ℚ)

/-!
`failure_counts = (status_df == False).sum().sort_values(ascending=False)`.

pandas `Series.sort_values` with the default `kind="quicksort"` computes
(`pandas/core/sorting.py`, `nargsort`) the ASCENDING numpy argsort of the
values and, for `ascending=False`, reverses the resulting index array.
numpy's argsort with `kind="quicksort"` on the scalar path is introsort
(`numpy/_core/src/npysort/quicksort.c.src`, `aquicksort_`): median-of-3
partitioning while a segment is longer than `SMALL_QUICKSORT = 15`
elements, insertion sort below that, and a heapsort fallback once the
recursion depth exceeds `2 * msb(n)`.  The series being sorted here always
has exactly 17 elements (one per status column), so index arrays are
`Array (Fin 17)`; a 17-element sort performs exactly one partition (both
halves then have at most 15 elements), so the depth limit `2 * msb(17) = 8`
is never exhausted and the heapsort fallback is dead code at this call
site (modelled as leaving the segment untouched).  Loops are modelled with
ample fuel; reads and writes are bounds-checked (`getD`/`setD`), which
coincides with the pointer arithmetic of the C code on in-range input.
-/

/-- Value of the series at the position a sort-index array names:
`v[tosort[k]]` in the C code. -/
def vAt (v : Array Int) (t : Array (Fin 17)) (k : Nat) : Int :=
  v.getD (t.getD k 0).val 0

/-- `INTP_SWAP(*pi, *pj)`: exchange two entries of the index array. -/
def aswap (t : Array (Fin 17)) (i j : Nat) : Array (Fin 17) :=
  let vi := t.getD i 0
  let vj := t.getD j 0
  (t.setD i vj).setD j vi

/-- `do ++pi; while (v[*pi] < vp)`. -/
def scanUp (v : Array Int) (t : Array (Fin 17)) (vp : Int) :
    Nat → Nat → Nat
  | pi, 0 => pi + 1
  | pi, fuel + 1 =>
    let pi' := pi + 1
    if vAt v t pi' < vp then scanUp v t vp pi' fuel else pi'

/-- `do --pj; while (vp < v[*pj])`. -/
def scanDown (v : Array Int) (t : Array (Fin 17)) (vp : Int) :
    Nat → Nat → Nat
  | pj, 0 => pj - 1
  | pj, fuel + 1 =>
    let pj' := pj - 1
    if vp < vAt v t pj' then scanDown v t vp pj' fuel else pj'

/-- The inner partition exchange loop of `aquicksort_`; returns the updated
index array and the final `pi`. -/
def partitionLoop (v : Array Int) (vp : Int) :
    Array (Fin 17) → Nat → Nat → Nat → Array (Fin 17) × Nat
  | t, pi, _, 0 => (t, pi)
  | t, pi, pj, fuel + 1 =>
    let pi' := scanUp v t vp pi 17
    let pj' := scanDown v t vp pj 17
    if pj' ≤ pi' then (t, pi')
    else partitionLoop v vp (aswap t pi' pj') pi' pj' fuel

/-- The shift phase of the insertion sort
(`while (pj > pl && vp < v[*pk]) *pj-- = *pk--`); returns the array and the
final `pj`. -/
def insShift (v : Array Int) (vp : Int) (pl : Nat) :
    Array (Fin 17) → Nat → Nat → Array (Fin 17) × Nat
  | t, pj, 0 => (t, pj)
  | t, pj, fuel + 1 =>
    if pl < pj ∧ vp < vAt v t (pj - 1) then
      insShift v vp pl (t.setD pj (t.getD (pj - 1) 0)) (pj - 1) fuel
    else (t, pj)

/-- The insertion sort of `aquicksort_` over the segment `[pl, pr]`. -/
def insLoop (v : Array Int) (pl pr : Nat) :
    Array (Fin 17) → Nat → Nat → Array (Fin 17)
  | t, _, 0 => t
  | t, pi, fuel + 1 =>
    if pr < pi then t
    else
      let vi := t.getD pi 0
      let vp := v.getD vi.val 0
      let (t', pj) := insShift v vp pl t pi 17
      insLoop v pl pr (t'.setD pj vi) (pi + 1) fuel

/-- The outer loop of `aquicksort_`: the current segment is the head of
`segs`, the rest is the explicit stack. -/
def sortMainLoop (v : Array Int) :
    Array (Fin 17) → List (Nat × Nat) → Int → Nat → Array (Fin 17)
  | t, _, _, 0 => t
  | t, [], _, _ + 1 => t
  | t, (pl, pr) :: rest, depth, fuel + 1 =>
    if 15 < pr - pl then
      if depth < 0 then
        sortMainLoop v t rest depth fuel
      else
        let t := if vAt v t (pl + (pr - pl) / 2) < vAt v t pl then
                   aswap t (pl + (pr - pl) / 2) pl else t
        let t := if vAt v t pr < vAt v t (pl + (pr - pl) / 2) then
                   aswap t pr (pl + (pr - pl) / 2) else t
        let t := if vAt v t (pl + (pr - pl) / 2) < vAt v t pl then
                   aswap t (pl + (pr - pl) / 2) pl else t
        let vp := vAt v t (pl + (pr - pl) / 2)
        let t := aswap t (pl + (pr - pl) / 2) (pr - 1)
        let (t, pi) := partitionLoop v vp t pl (pr - 1) 17
        let t := aswap t pi (pr - 1)
        if pi - pl < pr - pi then
          sortMainLoop v t ((pl, pi - 1) :: (pi + 1, pr) :: rest) (depth - 1) fuel
        else
          sortMainLoop v t ((pi + 1, pr) :: (pl, pi - 1) :: rest) (depth - 1) fuel
    else
      sortMainLoop v (insLoop v pl pr t (pl + 1) 17) rest depth fuel

/-- numpy `argsort(kind="quicksort")` of a 17-element integer series:
ascending order of positions.  Depth limit `2 * msb(17) = 8`. -/
def npyArgsort (v : Array Int) : Array (Fin 17) :=
  sortMainLoop v ((List.finRange 17).toArray) [(0, 16)] 8 64

/-- pandas `sort_values(ascending=False)` on a 17-element series: the
reversal of the ascending argsort (`nargsort` with `ascending=False`). -/
def sort_values_desc (counts : List Int) : List (Fin 17) :=
  (npyArgsort counts.toArray).toList.reverse

/-- `(status_df == False).sum()`: per status column (in `status_cols`
order), the number of filtered rows whose flag is `False`. -/
def failure_counts (rows : List AuditRecord) : List Nat :=
  (List.finRange 17).map
    (fun i => (rows.filter (fun r => decide (r.status i = false))).length)

/-- `item_map.get(item_key, "Unknown")`. -/
def lookupOr (m : List (String × String)) (k dflt : String) : String :=
  match m.lookup k with
  | some v => v
  | none => dflt

/-- The Top 3 Failing Items block: sort the failure counts descending,
take the first three, and display each item's description (via `item_map`,
default `"Unknown"`) with its failure count. -/
def top3_failing (rows : List AuditRecord) : List (String × Nat) :=
  let counts := failure_counts rows
  let order := sort_values_desc (counts.map (fun n => (n : Int)))
  (order.take 3).map (fun i =>
    (lookupOr item_map (status_cols.getD i.val "") "Unknown",
     counts.getD i.val 0))

/-- `filtered_df_6s.groupby("Equipment")['Compliance Score'].mean()`
(group keys listed in first-appearance order; pandas sorts them, which the
membership claims below do not depend on). -/
def compliance_by_equip (rows : List AuditRecord) : List (String × ℚ) :=
  ((rows.map (fun r => r.equipment)).dedup).map (fun eq =>
    (eq, mean ((rows.filter (fun r => decide (r.equipment = eq))).map
      (fun r => r.complianceScore))))

/-- `filtered_df_6s.pivot_table(index='Equipment', columns='Date',
values='Compliance Score', aggfunc='mean')`: one cell per
(equipment, date) pair that occurs, holding the mean score of that
equipment's audits on that day. -/
def heatmap_cells (rows : List AuditRecord) :
    List ((String × Int) × ℚ) :=
  ((rows.map (fun r => (r.equipment, r.date))).dedup).map (fun p =>
    (p, mean ((rows.filter (fun r =>
        decide (r.equipment = p.1) && decide (r.date = p.2))).map
      (fun r => r.complianceScore))))

/-- What the audit dashboard renders. -/
inductive AuditDash where
  | noData
  | rangeError
  | noDataInRange
  | report (total : Nat) (avgScore : ℚ) (top3 : List (String × Nat))
      (complianceByEquip : List (String × ℚ))
      (heatmap : List ((String × Int) × ℚ))
deriving DecidableEq

/-- The audit dashboard tab: emptiness guard, then the
`start_date_6s > end_date_6s` validation, then the date mask, then the
empty-filtered guard, then the metrics, Top 3 block and charts. -/
def auditDashboard (store : List AuditRecord) (s e : Int) : AuditDash :=
  if store.isEmpty then .noData
  else if e < s then .rangeError
  else
    let filtered := filterAudits store s e
    if filtered.isEmpty then .noDataInRange
    else
      .report filtered.length
        (mean (filtered.map (fun r => r.complianceScore)))
        (top3_failing filtered)
        (compliance_by_equip filtered)
        (heatmap_cells filtered)

/-!
Concrete sample data used by counterexamples and witnesses.
-/

/-- An audit submission on day 0 with every checklist item passing. -/
def allPassInput : AuditInput :=
  { date := 0, equipment := "Workstation-A", auditor := "John Smith"
    status := fun _ => true, remarks := fun _ => "" }

/-- An audit submission whose first `n` checklist items fail. -/
def failFirstInput (n : Nat) : AuditInput :=
  { date := 0, equipment := "Workstation-A", auditor := "John Smith"
    status := fun i => decide (n ≤ i.val), remarks := fun _ => "" }

/-- A filtered audit set in which all 17 failure counts are 0 (tied). -/
def rowsAllPass : List AuditRecord := [mkAuditRecord allPassInput]

/-- A filtered audit set realising the spec's example failure counts
`[5, 5, 3, 0, …, 0]`: item_1 and item_2 fail five times, item_3 three. -/
def rows553 : List AuditRecord :=
  List.replicate 3 (mkAuditRecord (failFirstInput 3))
    ++ List.replicate 2 (mkAuditRecord (failFirstInput 2))

/-- A two-row maintenance store: one record on day 0, one on day 5. -/
def demoActivities : List MaintenanceRecord :=
  [{ date := 0, equipment := "Port-01", technician := "Jane Doe"
     activity := .inspection, remarks := "" },
   { date := 5, equipment := "Port-02", technician := "Jane Doe"
     activity := .repair, remarks := "later" }]

/-!
Supporting lemmas.
-/

theorem total_items_eq : total_items = 17 := rfl

theorem size_aswap (t : Array (Fin 17)) (i j : Nat) :
    (aswap t i j).size = t.size := by
  simp [aswap, Array.size_setD]

theorem size_partitionLoop (v : Array Int) (vp : Int) :
    ∀ (fuel : Nat) (t : Array (Fin 17)) (pi pj : Nat),
      (partitionLoop v vp t pi pj fuel).1.size = t.size := by
  intro fuel
  induction fuel with
  | zero => intro t pi pj; rfl
  | succ n ih =>
    intro t pi pj
    simp only [partitionLoop]
    split
    · rfl
    · rw [ih, size_aswap]

theorem size_insShift (v : Array Int) (vp : Int) (pl : Nat) :
    ∀ (fuel : Nat) (t : Array (Fin 17)) (pj : Nat),
      (insShift v vp pl t pj fuel).1.size = t.size := by
  intro fuel
  induction fuel with
  | zero => intro t pj; rfl
  | succ n ih =>
    intro t pj
    simp only [insShift]
    split
    · rw [ih, Array.size_setD]
    · rfl

theorem size_insLoop (v : Array Int) (pl pr : Nat) :
    ∀ (fuel : Nat) (t : Array (Fin 17)) (pi : Nat),
      (insLoop v pl pr t pi fuel).size = t.size := by
  intro fuel
  induction fuel with
  | zero => intro t pi; rfl
  | succ n ih =>
    intro t pi
    simp only [insLoop]
    split
    · rfl
    · rw [ih, Array.size_setD, size_insShift]

theorem size_sortMainLoop (v : Array Int) :
    ∀ (fuel : Nat) (t : Array (Fin 17)) (segs : List (Nat × Nat)) (depth : Int),
      (sortMainLoop v t segs depth fuel).size = t.size := by
  intro fuel
  induction fuel with
  | zero => intro t segs depth; cases segs <;> rfl
  | succ n ih =>
    intro t segs depth
    match segs with
    | [] => rfl
    | (pl, pr) :: rest =>
      simp only [sortMainLoop]
      repeat' split
      all_goals simp [ih, size_aswap, size_partitionLoop, size_insLoop]

theorem size_npyArgsort (v : Array Int) : (npyArgsort v).size = 17 := by
  rw [npyArgsort, size_sortMainLoop]
  simp

theorem length_sort_values_desc (counts : List Int) :
    (sort_values_desc counts).length = 17 := by
  simp [sort_values_desc, size_npyArgsort]

/-!
Claim theorems.
-/

/-- C3: the compliance score computed and stored at audit submission equals
100 × (number of passing flags) / 17 for every combination of the 17
boolean checklist flags; all passes give 100, none give 0, and 9 passes
give 900/17 = 52.94117…. -/
theorem c3_compliance_score (inp : AuditInput) :
    (mkAuditRecord inp).complianceScore = 100 * (passed_items inp.status : ℚ) / 17 ∧
    complianceScoreOf (fun _ => true) = 100 ∧
    complianceScoreOf (fun _ => false) = 0 ∧
    complianceScoreOf (fun i => decide (i.val < 9)) = 900 / 17 := by
  have key : ∀ st : Fin 17 → Bool,
      complianceScoreOf st = 100 * (passed_items st : ℚ) / 17 := by
    intro st
    rw [complianceScoreOf, total_items_eq, if_pos (by norm_num)]
    push_cast
    ring
  have h17 : passed_items (fun _ => true) = 17 := by decide
  have h0 : passed_items (fun _ => false) = 0 := by decide
  have h9 : passed_items (fun i => decide (i.val < 9)) = 9 := by decide
  refine ⟨key inp.status, ?_, ?_, ?_⟩ <;> rw [key]
  · rw [h17]; norm_num
  · rw [h0]; norm_num
  · rw [h9]; norm_num

/-- C4: for every store and dates start ≤ end, the date-range mask of both
dashboards keeps exactly the rows whose date d satisfies start ≤ d ≤ end
(both bounds inclusive). -/
theorem c4_date_filter (s e : Int) (hrange : s ≤ e)
    (ms : List MaintenanceRecord) (aus : List AuditRecord) :
    (∀ r, r ∈ filterActivities ms s e ↔ r ∈ ms ∧ s ≤ r.date ∧ r.date ≤ e) ∧
    (∀ r, r ∈ filterAudits aus s e ↔ r ∈ aus ∧ s ≤ r.date ∧ r.date ≤ e) := by
  constructor <;> intro r <;>
    simp [filterActivities, filterAudits, dateMask, List.mem_filter, and_assoc]

/-- Witness for C4: with range [0, 5], the record dated exactly on the
start day and the one dated exactly on the end day are both kept. -/
theorem c4_witness :
    demoActivities.get ⟨0, by simp [demoActivities]⟩ ∈
      filterActivities demoActivities 0 5 ∧
    demoActivities.get ⟨1, by simp [demoActivities]⟩ ∈
      filterActivities demoActivities 0 5 :=
  ⟨((c4_date_filter 0 5 (by decide) demoActivities []).1 _).mpr
      ⟨by simp [demoActivities], by decide, by decide⟩,
   ((c4_date_filter 0 5 (by decide) demoActivities []).1 _).mpr
      ⟨by simp [demoActivities], by decide, by decide⟩⟩

/-- C5: whenever start > end, each dashboard (rendering its date inputs,
i.e. with a non-empty store) reports the validation error and renders
nothing further, and neither dashboard event changes the session state. -/
theorem c5_range_validation (st : AppState) (s e : Int) (h : e < s) :
    (st.activities ≠ [] → maintDashboard st.activities s e = .rangeError) ∧
    (st.audits ≠ [] → auditDashboard st.audits s e = .rangeError) ∧
    step st (.maintDash s e) = st ∧ step st (.auditDash s e) = st := by
  refine ⟨?_, ?_, rfl, rfl⟩ <;> intro hne <;>
    simp [maintDashboard, auditDashboard, List.isEmpty_iff, hne, h]

/-- Witness for C5 at start 5 > end 3 on non-empty stores. -/
theorem c5_witness :
    maintDashboard demoActivities 5 3 = .rangeError ∧
    auditDashboard rowsAllPass 5 3 = .rangeError :=
  ⟨(c5_range_validation ⟨demoActivities, rowsAllPass⟩ 5 3 (by decide)).1
      (by simp [demoActivities]),
   (c5_range_validation ⟨demoActivities, rowsAllPass⟩ 5 3 (by decide)).2.1
      (by simp [rowsAllPass])⟩

/-- C6: every form submission is accepted: it appends exactly one row to
the owning store, and the appended row's fields are the submitted control
values verbatim (for audits, the non-computed fields; the score is
computed at submission). -/
theorem c6_submission_appends (st : AppState)
    (mi : MaintenanceRecord) (ai : AuditInput) :
    (step st (.submitMaint mi)).activities = st.activities ++ [mi] ∧
    (step st (.submitMaint mi)).activities.length = st.activities.length + 1 ∧
    (step st (.submitMaint mi)).audits = st.audits ∧
    (step st (.submitAudit ai)).audits = st.audits ++ [mkAuditRecord ai] ∧
    (step st (.submitAudit ai)).audits.length = st.audits.length + 1 ∧
    (step st (.submitAudit ai)).activities = st.activities ∧
    (mkAuditRecord ai).date = ai.date ∧
    (mkAuditRecord ai).equipment = ai.equipment ∧
    (mkAuditRecord ai).auditor = ai.auditor ∧
    (mkAuditRecord ai).status = ai.status ∧
    (mkAuditRecord ai).remarks = ai.remarks :=
  ⟨rfl, by simp [step], rfl, rfl, by simp [step], rfl, rfl, rfl, rfl, rfl, rfl⟩

/-- C7: every operation of the application either leaves each store
unchanged or appends exactly one row at its end; the previously stored
rows are never modified or shortened. -/
theorem c7_append_only (st : AppState) (op : Op) :
    (∃ tail, (step st op).activities = st.activities ++ tail ∧ tail.length ≤ 1) ∧
    (∃ tail, (step st op).audits = st.audits ++ tail ∧ tail.length ≤ 1) := by
  cases op with
  | submitMaint inp =>
    exact ⟨⟨[inp], rfl, by simp⟩, ⟨[], by simp [step], by simp⟩⟩
  | submitAudit inp =>
    exact ⟨⟨[], by simp [step], by simp⟩, ⟨[mkAuditRecord inp], rfl, by simp⟩⟩
  | viewMaintLogs =>
    exact ⟨⟨[], by simp [step], by simp⟩, ⟨[], by simp [step], by simp⟩⟩
  | viewAuditLogs =>
    exact ⟨⟨[], by simp [step], by simp⟩, ⟨[], by simp [step], by simp⟩⟩
  | maintDash s e =>
    exact ⟨⟨[], by simp [step], by simp⟩, ⟨[], by simp [step], by simp⟩⟩
  | auditDash s e =>
    exact ⟨⟨[], by simp [step], by simp⟩, ⟨[], by simp [step], by simp⟩⟩

/-- C8: an empty store, and an empty date-filtered set, are detected by the
guards before any aggregation: the dashboards then return the dedicated
empty-state outputs (`noData` / `noDataInRange`), which carry no computed
metric, instead of a `report`. -/
theorem c8_empty_guards (ms : List MaintenanceRecord)
    (aus : List AuditRecord) (s e : Int) :
    (ms = [] → maintDashboard ms s e = .noData) ∧
    (aus = [] → auditDashboard aus s e = .noData) ∧
    (ms ≠ [] → s ≤ e → filterActivities ms s e = [] →
      maintDashboard ms s e = .noDataInRange) ∧
    (aus ≠ [] → s ≤ e → filterAudits aus s e = [] →
      auditDashboard aus s e = .noDataInRange) := by
  refine ⟨?_, ?_, ?_, ?_⟩
  · intro hms; subst hms; rfl
  · intro haus; subst haus; rfl
  · intro hne hse hf
    simp [maintDashboard, List.isEmpty_iff, hne, hf, not_lt.mpr hse]
  · intro hne hse hf
    simp [auditDashboard, List.isEmpty_iff, hne, hf, not_lt.mpr hse]

/-- Witness for C8: empty stores yield the empty-store message; a
non-empty store with the range [1, 2] (which matches no record) yields the
empty-range message. -/
theorem c8_witness :
    maintDashboard [] 0 0 = .noData ∧
    auditDashboard [] 0 0 = .noData ∧
    maintDashboard demoActivities 1 2 = .noDataInRange :=
  ⟨(c8_empty_guards [] [] 0 0).1 rfl,
   (c8_empty_guards [] [] 0 0).2.1 rfl,
   (c8_empty_guards demoActivities [] 1 2).2.2.1
      (by simp [demoActivities]) (by decide) (by decide)⟩

theorem heatmap_cells_exists (rows : List AuditRecord) (eq : String) (d : Int) :
    (∃ r ∈ rows, r.equipment = eq ∧ r.date = d) ↔
      ∃ v, ((eq, d), v) ∈ heatmap_cells rows := by
  constructor
  · rintro ⟨r, hr, he, hd⟩
    refine ⟨_, List.mem_map_of_mem _ ?_⟩
    rw [List.mem_dedup, List.mem_map]
    exact ⟨r, hr, by rw [he, hd]⟩
  · rintro ⟨v, hv⟩
    rw [heatmap_cells, List.mem_map] at hv
    obtain ⟨p, hp, hpe⟩ := hv
    rw [List.mem_dedup, List.mem_map] at hp
    obtain ⟨r, hr, hre⟩ := hp
    obtain ⟨h1, -⟩ := Prod.mk.injEq .. ▸ hpe
    obtain ⟨he, hd⟩ := Prod.mk.injEq .. ▸ h1
    obtain ⟨he', hd'⟩ := Prod.mk.injEq .. ▸ hre
    exact ⟨r, hr, by rw [he', he], by rw [hd', hd]⟩

theorem heatmap_cells_value (rows : List AuditRecord) (eq : String) (d : Int)
    (v : ℚ) (hv : ((eq, d), v) ∈ heatmap_cells rows) :
    v = mean ((rows.filter (fun r =>
        decide (r.equipment = eq) && decide (r.date = d))).map
      (fun r => r.complianceScore)) := by
  rw [heatmap_cells, List.mem_map] at hv
  obtain ⟨p, -, hpe⟩ := hv
  obtain ⟨h1, h2⟩ := Prod.mk.injEq .. ▸ hpe
  obtain ⟨he, hd⟩ := Prod.mk.injEq .. ▸ h1
  rw [← h2, ← he, ← hd]

/-- C9: whenever the audit dashboard renders its report, the Total Audits
metric is the number of filtered rows, the Avg. Compliance Score is the
arithmetic mean of the stored scores of those rows, and the heatmap has
one cell exactly for each (equipment, date) pair with at least one
filtered audit, holding the mean of the stored scores of that equipment's
audits on that day. -/
theorem c9_audit_metrics (store : List AuditRecord) (s e : Int)
    (t : Nat) (avg : ℚ) (tp : List (String × Nat)) (cbe : List (String × ℚ))
    (hm : List ((String × Int) × ℚ))
    (h : auditDashboard store s e = .report t avg tp cbe hm) :
    t = (filterAudits store s e).length ∧
    avg = mean ((filterAudits store s e).map (fun r => r.complianceScore)) ∧
    (∀ eq d, (∃ r ∈ filterAudits store s e, r.equipment = eq ∧ r.date = d) ↔
        ∃ v, ((eq, d), v) ∈ hm) ∧
    (∀ eq d v, ((eq, d), v) ∈ hm →
        v = mean (((filterAudits store s e).filter (fun r =>
            decide (r.equipment = eq) && decide (r.date = d))).map
          (fun r => r.complianceScore))) := by
  simp only [auditDashboard] at h
  split at h
  · exact absurd h (by simp)
  split at h
  · exact absurd h (by simp)
  split at h
  · exact absurd h (by simp)
  rw [AuditDash.report.injEq] at h
  obtain ⟨rfl, rfl, rfl, rfl, rfl⟩ := h
  refine ⟨rfl, rfl, ?_, ?_⟩
  · intro eq d; exact heatmap_cells_exists _ eq d
  · intro eq d v hv; exact heatmap_cells_value _ eq d v hv

/-- Witness for C9: one all-pass audit of "Workstation-A" on day 0,
range [0, 0]: the dashboard reports 1 audit, average 100, and one heatmap
cell for ("Workstation-A", day 0) valued 100. -/
theorem c9_witness :
    1 = (filterAudits rowsAllPass 0 0).length ∧
    (100 : ℚ) = mean ((filterAudits rowsAllPass 0 0).map
      (fun r => r.complianceScore)) ∧
    (∀ eq d, (∃ r ∈ filterAudits rowsAllPass 0 0,
        r.equipment = eq ∧ r.date = d) ↔
      ∃ v, ((eq, d), v) ∈ [(("Workstation-A", (0 : Int)), (100 : ℚ))]) ∧
    (∀ eq d v, ((eq, d), v) ∈ [(("Workstation-A", (0 : Int)), (100 : ℚ))] →
      v = mean (((filterAudits rowsAllPass 0 0).filter (fun r =>
          decide (r.equipment = eq) && decide (r.date = d))).map
        (fun r => r.complianceScore))) :=
  c9_audit_metrics rowsAllPass 0 0 1 100 (top3_failing rowsAllPass)
    [("Workstation-A", 100)] [(("Workstation-A", 0), 100)] (by
  have hsc : (mkAuditRecord allPassInput).complianceScore = 100 := by
    rw [show (mkAuditRecord allPassInput).complianceScore
          = complianceScoreOf allPassInput.status from rfl]
    rw [complianceScoreOf, total_items_eq, if_pos (by norm_num)]
    rw [show passed_items allPassInput.status = 17 from by decide]
    norm_num
  rw [show auditDashboard rowsAllPass 0 0 =
      AuditDash.report 1 (mean (rowsAllPass.map (fun r => r.complianceScore)))
        (top3_failing rowsAllPass) (compliance_by_equip rowsAllPass)
        (heatmap_cells rowsAllPass) from rfl]
  congr 1
  · rw [show rowsAllPass.map (fun r => r.complianceScore)
        = [(mkAuditRecord allPassInput).complianceScore] from rfl, hsc]
    simp [mean]
  · rw [show compliance_by_equip rowsAllPass
        = [("Workstation-A",
            mean [(mkAuditRecord allPassInput).complianceScore])] from rfl, hsc]
    simp [mean]
  · rw [show heatmap_cells rowsAllPass
        = [(("Workstation-A", 0),
            mean [(mkAuditRecord allPassInput).complianceScore])] from rfl, hsc]
    simp [mean])

/-- C10: for every non-empty filtered audit set the Top 3 Failing Items
panel lists exactly three items (all 17 items have a failure count, zero
or not, so `head(3)` always has three entries), and every listed key
resolves through `item_map`, so the `"Unknown"` fallback never shows. -/
theorem c10_top3_shape (rows : List AuditRecord) (hne : rows ≠ []) :
    (top3_failing rows).length = 3 ∧
    ∀ p ∈ top3_failing rows, p.1 ≠ "Unknown" := by
  constructor
  · simp only [top3_failing, List.length_map, List.length_take,
      length_sort_values_desc]
    decide
  · intro p hp
    simp only [top3_failing, List.mem_map] at hp
    obtain ⟨i, -, rfl⟩ := hp
    have key : ∀ j : Fin 17,
        lookupOr item_map (status_cols.getD j.val "") "Unknown" ≠ "Unknown" := by
      decide
    exact key i

/-- Witness for C10 on the five-audit sample set. -/
theorem c10_witness :
    (top3_failing rows553).length = 3 ∧
    ∀ p ∈ top3_failing rows553, p.1 ≠ "Unknown" :=
  c10_top3_shape rows553 (by simp [rows553])

/-- C1 counterexample: the audit log viewer displays only
`base_cols_6s ++ status_cols` (21 columns), but the download button
serialises `df_filtered.to_csv(index=False)` — the FULL store — so the
export's header also contains the 17 remark columns.  In particular
`"item_1_Remarks"` is an exported header name that is not a displayed
column, so the exported header does not equal the displayed header. -/
theorem c1_counterexample :
    csvHeaderOf (audit_to_csv rowsAllPass) ≠ (auditDisplayedTable rowsAllPass).1 ∧
    "item_1_Remarks" ∈ csvHeaderOf (audit_to_csv rowsAllPass) ∧
    "item_1_Remarks" ∉ (auditDisplayedTable rowsAllPass).1 := by
  refine ⟨by decide, by decide, by decide⟩

/-- C1 amended: the audit CSV export's header names are the full store
columns — the four base columns, the 17 `_Status` columns AND the 17
`_Remarks` columns — a strict superset of the displayed columns
(`base_cols_6s ++ status_cols`); parsing the export still reproduces the
displayed table's number of data rows (one per stored record). -/
theorem c1_export_full_columns (store : List AuditRecord) :
    csvHeaderOf (audit_to_csv store) = base_cols_6s ++ status_cols ++ remarks_cols ∧
    (auditDisplayedTable store).1 = base_cols_6s ++ status_cols ∧
    csvDataRowCount (audit_to_csv store) = store.length ∧
    (auditDisplayedTable store).2.length = store.length := by
  have hd : audit_display_cols = base_cols_6s ++ status_cols := by decide
  refine ⟨rfl, hd, ?_, ?_⟩
  · simp [audit_to_csv, csvDataRowCount]
  · simp [auditDisplayedTable]

/-- C2 counterexample: with a single all-pass audit every checklist item
has the same failure count (0), so the claimed stable declaration-order
tie-break would list item_1, item_2, item_3; the code's
`sort_values(ascending=False)` (an unstable quicksort argsort, reversed)
instead lists item_17, item_8, item_2 — tied items out of declaration
order (e.g. item_8's description precedes item_2's). -/
theorem c2_counterexample :
    failure_counts rowsAllPass = List.replicate 17 0 ∧
    top3_failing rowsAllPass =
      [("No safety hazards present", 0),
       ("Grid/chargers free of dust", 0),
       ("Floors clear", 0)] ∧
    ("Workstation free of items", 0) ∉ top3_failing rowsAllPass := by
  refine ⟨by decide, by decide, by decide⟩

/-- C2 amended: the Top 3 panel lists the first three entries of the
failure counts sorted descending by pandas `sort_values(ascending=False)`,
which is the reversal of numpy's unstable ascending quicksort argsort;
ties therefore carry no declaration-order guarantee.  On the spec's own
example (counts [5, 5, 3, 0, …, 0]) the listing happens to be item_1,
item_2, item_3 — descending, with the tied pair in declaration order —
but with all 17 counts tied the listing is item_17, item_8, item_2. -/
theorem c2_ranking_behaviour :
    failure_counts rows553 = 5 :: 5 :: 3 :: List.replicate 14 0 ∧
    top3_failing rows553 =
      [("Workstation free of items", 5),
       ("Floors clear", 5),
       ("Unneeded bins removed", 3)] ∧
    top3_failing rowsAllPass =
      [("No safety hazards present", 0),
       ("Grid/chargers free of dust", 0),
       ("Floors clear", 0)] := by
  refine ⟨by decide, by decide, by decide⟩

end ETO
